import Mathlib

/-!
# Verification of `vless2json.py`

A shallow embedding of the repository's single source file
`src/xray-configs/vless2json.py` (run under CPython 3.11), together with
proofs settling the frozen claims about it.

Embedding conventions:
* Python values that can occur in this program are modelled by `PyVal`
  (`None`, `bool`, `int`, `str`, `list`, `dict`); dictionaries are ordered
  association lists, mirroring Python's insertion-ordered `dict`.
* `DotAccessibleDict` is modelled by `DotVal`: a present (wrapped) value,
  the distinguished absent marker (`DotAccessibleDict(missing=True)`),
  `shadowed name` for an access whose name collides with a real attribute
  of the wrapper (Python calls `__getattr__` only when normal attribute
  lookup fails, so such names resolve to bound `dict` methods and the like
  — see `dadShadowedNames`), `outside` for a chain that has continued past
  a shadowed attribute and left the accessor's contract, and `attrError`
  for the `AttributeError` Python raises when attribute access is chained
  off a raw non-mapping value.  Inside a wrapped structure every nested
  `dict` has been re-wrapped by the constructor, so a present `dict` is
  always truthy (`DotAccessibleDict.__bool__` ignores the entries); all
  other values use ordinary Python truthiness.
* Fallible Python code is embedded in `Except`: `sys.exit(msg)` becomes
  `PFail.exit msg`, an uncaught exception (e.g. the `ValueError` raised by
  `urllib.parse` or `SplitResult.port`) becomes `PFail.raise_ msg`.
* `urllib.parse` (CPython 3.11.6) is embedded on `List Char`.  Model
  restrictions, each marked where it occurs: bracketed (IPv6) hosts and
  non-ASCII authorities make the embedded `urlsplit` return a distinguished
  error rather than reproducing `ipaddress`/NFKC behaviour, and percent
  decoding (`unquote`) is the identity, which is exact for inputs without
  a percent sign (`unquote` returns strings without `%` unchanged).
  `Char.toLower` is ASCII-only while `str.lower` is Unicode-aware; every
  comparison in the program checks equality with an ASCII literal, for
  which the two agree.
-/

/-- Characters of a Python `str`. -/
abbrev Str := List Char

/-- Python values occurring in this program. -/
inductive PyVal where
  | pnone
  | pbool (b : Bool)
  | pint (n : Int)
  | pstr (s : String)
  | plist (xs : List PyVal)
  | pdict (fs : List (String × PyVal))

/-- Ordered-dict lookup (first binding wins; Python dicts have unique keys). -/
def alistGet : List (String × PyVal) → String → Option PyVal
  | [], _ => none
  | (k, v) :: t, key => if k = key then some v else alistGet t key

/-- String-to-string association list lookup (for the decoded query options). -/
def alistGetS : List (String × String) → String → Option String
  | [], _ => none
  | (k, v) :: t, key => if k = key then some v else alistGetS t key

/-- Python truthiness of a value stored inside a wrapped `DotAccessibleDict`.

The constructor recursively re-wraps every nested `dict` as a
`DotAccessibleDict(missing=False)`, whose `__bool__` is `True` regardless of
its entries, so a stored `dict` is always truthy here.  The remaining cases
are ordinary Python truthiness. -/
def truthyWrapped : PyVal → Bool
  | .pnone => false
  | .pbool b => b
  | .pint n => n != 0
  | .pstr s => s != ""
  | .plist xs => !xs.isEmpty
  | .pdict _ => true

/-- The attribute names on which normal attribute lookup succeeds on every
`DotAccessibleDict` instance, so that Python never consults `__getattr__`
for them: the name-mangled instance attribute, the methods the class itself
defines (`__init__`, `__bool__`, `__getattr__`, `get_path`), and everything
inherited from `dict` and `object` in CPython 3.11 (the union of
`vars(instance)` and `vars(c)` over the MRO).  Note that names such as
`__qualname__` or `__name__` are type-only attributes and do go through
`__getattr__` on an instance. -/
def dadShadowedNames : List String :=
  ["_DotAccessibleDict__is_missing", "__bool__", "__class__",
   "__class_getitem__", "__contains__", "__delattr__", "__delitem__",
   "__dict__", "__dir__", "__doc__", "__eq__", "__format__", "__ge__",
   "__getattr__", "__getattribute__", "__getitem__", "__getstate__",
   "__gt__", "__hash__", "__init__", "__init_subclass__", "__ior__",
   "__iter__", "__le__", "__len__", "__lt__", "__module__", "__ne__",
   "__new__", "__or__", "__reduce__", "__reduce_ex__", "__repr__",
   "__reversed__", "__ror__", "__setattr__", "__setitem__", "__sizeof__",
   "__str__", "__subclasshook__", "__weakref__", "clear", "copy",
   "fromkeys", "get", "get_path", "items", "keys", "pop", "popitem",
   "setdefault", "update", "values"]

/-- Whether a field name collides with a real attribute of the wrapper. -/
def dadShadowed (k : String) : Bool := dadShadowedNames.contains k

/-- The result of attribute-style access on a `DotAccessibleDict` chain. -/
inductive DotVal where
  | absent
  | value (v : PyVal)
  | shadowed (name : String)
  | outside
  | attrError

/-- Attribute access on a `DotAccessibleDict` (vless2json.py lines 18-24).
Python calls `__getattr__` only when normal attribute lookup fails, so a
name in `dadShadowedNames` resolves to the wrapper's own attribute (a bound
`dict` method, `get_path`, the mangled flag, or an inherited dunder) —
modelled as `shadowed name` — on the wrapped mapping and on the absent
marker alike, never reaching the stored entry or producing an absent
marker.  For every other name, `__getattr__` runs: on the absent marker it
yields a fresh absent marker; on a wrapped mapping a present truthy value
is returned and a missing key (`KeyError`) or present falsy value
(`self[key] or DotAccessibleDict(missing=True)`) yields the absent marker.
Chaining onward from a shadowed attribute is ordinary attribute access on
a non-`DotAccessibleDict` object (in CPython it raises `AttributeError`
for most names, e.g. `absent.items.sub`, and returns metadata for a few
method dunders): the embedding records only that the chain has left the
accessor's contract (`outside`) and no theorem asserts anything about
those outcomes.  Attribute access chained off a raw non-mapping stored
value is likewise an ordinary Python attribute lookup and raises
`AttributeError` for names without a matching object attribute (modelled
as `attrError`); it is never reached by `build_config`, whose fixed keys
all avoid `dadShadowedNames`. -/
def getattr : DotVal → String → DotVal
  | .absent, key => if dadShadowed key then .shadowed key else .absent
  | .attrError, _ => .attrError
  | .shadowed _, _ => .outside
  | .outside, _ => .outside
  | .value (.pdict fs), key =>
      if dadShadowed key then .shadowed key
      else
        match alistGet fs key with
        | some v => if truthyWrapped v then .value v else .absent
        | none => .absent
  | .value _, _ => .attrError

/-- Python `x or default` where `x` is the result of an attribute chain:
the absent marker is falsy, a wrapped value uses `truthyWrapped`.  An
`AttributeError` already raised during the chain propagates. -/
def dotOr : DotVal → PyVal → Except String PyVal
  | .absent, dflt => .ok dflt
  | .value v, dflt => .ok (if truthyWrapped v then v else dflt)
  | .shadowed _, _ => .error "shadowed attribute outside the accessor contract"
  | .outside, _ => .error "shadowed attribute outside the accessor contract"
  | .attrError, _ => .error "AttributeError"

/-- Placing the result of an attribute chain directly into the output
document.  The absent marker is a `DotAccessibleDict(missing=True)` with no
entries, which `json.dump` serialises as the empty object. -/
def dotMaterialize : DotVal → Except String PyVal
  | .absent => .ok (.pdict [])
  | .value v => .ok v
  | .shadowed _ => .error "shadowed attribute outside the accessor contract"
  | .outside => .error "shadowed attribute outside the accessor contract"
  | .attrError => .error "AttributeError"

/-- `build_config` (vless2json.py lines 37-216).  The argument is the merged
record built in `main`; the wrapped accessor is `DotVal.value (.pdict raw)`.
The let-bindings extract the input-derived holes in the evaluation order of
the Python dict literal; everything else is emitted as a fixed literal. -/
def build_config (raw_params : List (String × PyVal)) : Except String PyVal := do
  let params : DotVal := .value (.pdict raw_params)
  let socksPort ← dotOr (getattr (getattr params "proxies") "socks_port") (.pint 8107)
  let httpPort ← dotOr (getattr (getattr params "proxies") "http_port") (.pint 8108)
  let address ← dotMaterialize (getattr (getattr params "server") "host")
  let serverPort ← dotMaterialize (getattr (getattr params "server") "port")
  let userId ← dotMaterialize (getattr params "uuid")
  let flow ← dotOr (getattr (getattr params "params") "flow") (.pstr "xtls-rprx-vision-udp443")
  let network ← dotOr (getattr (getattr params "params") "type") (.pstr "tcp")
  let security ← dotOr (getattr (getattr params "params") "security") (.pstr "reality")
  let fingerprint ← dotMaterialize (getattr (getattr params "params") "fp")
  let serverName ← dotMaterialize (getattr (getattr params "params") "sni")
  let publicKey ← dotMaterialize (getattr (getattr params "params") "pbk")
  let shortId ← dotMaterialize (getattr (getattr params "params") "sid")
  pure (.pdict [
    ("log", .pdict [
      ("access", .pstr "none"),
      ("error", .pstr ""),
      ("loglevel", .pstr "warning"),
      ("dnsLog", .pbool false)]),
    ("stats", .pdict []),
    ("policy", .pdict [
      ("levels", .pdict [
        ("0", .pdict [
          ("statsUserUplink", .pbool true),
          ("statsUserDownlink", .pbool true)])]),
      ("system", .pdict [
        ("statsOutboundUplink", .pbool true),
        ("statsOutboundDownlink", .pbool true)])]),
    ("api", .pdict [
      ("tag", .pstr "api"),
      ("services", .plist [.pstr "StatsService"])]),
    ("inbounds", .plist [
      .pdict [
        ("tag", .pstr "socks"),
        ("port", socksPort),
        ("listen", .pstr "127.0.0.1"),
        ("protocol", .pstr "socks"),
        ("sniffing", .pdict [
          ("enabled", .pbool true),
          ("destOverride", .plist [.pstr "http", .pstr "tls"]),
          ("routeOnly", .pbool true)]),
        ("settings", .pdict [
          ("auth", .pstr "noauth"),
          ("udp", .pbool true)])],
      .pdict [
        ("tag", .pstr "http"),
        ("port", httpPort),
        ("listen", .pstr "127.0.0.1"),
        ("protocol", .pstr "http"),
        ("sniffing", .pdict [
          ("enabled", .pbool true),
          ("destOverride", .plist [.pstr "http", .pstr "tls"]),
          ("routeOnly", .pbool true)]),
        ("settings", .pdict [
          ("auth", .pstr "noauth"),
          ("udp", .pbool true)])]]),
    ("outbounds", .plist [
      .pdict [
        ("tag", .pstr "proxy"),
        ("protocol", .pstr "vless"),
        ("settings", .pdict [
          ("vnext", .plist [
            .pdict [
              ("address", address),
              ("port", serverPort),
              ("users", .plist [
                .pdict [
                  ("id", userId),
                  ("encryption", .pstr "none"),
                  ("flow", flow)]])]])]),
        ("streamSettings", .pdict [
          ("network", network),
          ("security", security),
          ("realitySettings", .pdict [
            ("fingerprint", fingerprint),
            ("serverName", serverName),
            ("show", .pbool false),
            ("publicKey", publicKey),
            ("shortId", shortId)])])],
      .pdict [
        ("tag", .pstr "direct"),
        ("protocol", .pstr "freedom"),
        ("settings", .pdict [])],
      .pdict [
        ("protocol", .pstr "blackhole"),
        ("tag", .pstr "block")]]),
    ("routing", .pdict [
      ("domainStrategy", .pstr "AsIs"),
      ("rules", .plist [
        .pdict [
          ("type", .pstr "field"),
          ("inboundTag", .plist [.pstr "api"]),
          ("outboundTag", .pstr "api")],
        .pdict [
          ("type", .pstr "field"),
          ("ip", .plist [.pstr "geoip:private"]),
          ("outboundTag", .pstr "block")],
        .pdict [
          ("type", .pstr "field"),
          ("protocol", .plist [.pstr "bittorrent"]),
          ("outboundTag", .pstr "direct")],
        .pdict [
          ("type", .pstr "field"),
          ("port", .pstr "6969,6881-6889"),
          ("outboundTag", .pstr "direct")],
        .pdict [
          ("type", .pstr "field"),
          ("sourcePort", .pstr "6881-6889"),
          ("outboundTag", .pstr "direct")],
        .pdict [
          ("type", .pstr "field"),
          ("domain", .plist [.pstr "ext:customgeo.dat:coherence-extra-exceptions"]),
          ("outboundTag", .pstr "proxy")],
        .pdict [
          ("type", .pstr "field"),
          ("domain", .plist [
            .pstr "geosite:cn",
            .pstr "domain:cn",
            .pstr "domain:xn--fiqs8s",
            .pstr "domain:xn--fiqz9s",
            .pstr "domain:xn--55qx5d",
            .pstr "domain:xn--io0a7i",
            .pstr "domain:ru",
            .pstr "domain:xn--p1ai",
            .pstr "domain:by",
            .pstr "domain:xn--90ais",
            .pstr "domain:ir",
            .pstr "ext:customgeo.dat:coherence-extra",
            .pstr "ext:customgeo.dat:coherence-extra-plus"]),
          ("outboundTag", .pstr "direct")],
        .pdict [
          ("type", .pstr "field"),
          ("ip", .plist [
            .pstr "geoip:cn",
            .pstr "geoip:ru",
            .pstr "geoip:by",
            .pstr "geoip:ir"]),
          ("outboundTag", .pstr "direct")]])])])

/-! ## Embedding of `urllib.parse` (CPython 3.11.6), restricted to what
`parse_vless_link` uses: `urlparse` components `scheme`, `netloc`, `query`,
`fragment` and the derived properties `username`, `hostname`, `port`, plus
`parse_qs`. -/

/-- A C0 control character or space (`_WHATWG_C0_CONTROL_OR_SPACE`). -/
def isC0OrSpace (c : Char) : Bool := c.toNat ≤ 32

/-- `url.lstrip(_WHATWG_C0_CONTROL_OR_SPACE)`: CPython 3.11 strips only the
leading C0/space characters and deliberately preserves trailing ones. -/
def lstripC0 (s : Str) : Str := s.dropWhile isC0OrSpace

/-- Removing `_UNSAFE_URL_BYTES_TO_REMOVE` (tab, CR, LF) everywhere. -/
def removeUnsafe (s : Str) : Str :=
  s.filter (fun c => !(c = '\t' || c = '\r' || c = '\n'))

/-- Characters valid in a URL scheme (`scheme_chars`). -/
def isSchemeChar (c : Char) : Bool :=
  c.isAlpha || c.isDigit || c = '+' || c = '-' || c = '.'

/-- The scheme-splitting step of `urlsplit`: if the text up to the first
colon is a non-empty run of scheme characters starting with an ASCII letter,
it is removed and lowercased; otherwise the scheme stays empty. -/
def splitScheme (url : Str) : Str × Str :=
  let before := url.takeWhile (fun c => c ≠ ':')
  let rest := url.dropWhile (fun c => c ≠ ':')
  match rest with
  | [] => ([], url)
  | _ :: afterColon =>
    match before with
    | [] => ([], url)
    | c0 :: _ =>
      if c0.isAlpha && before.all isSchemeChar then
        (before.map Char.toLower, afterColon)
      else ([], url)

/-- `_splitnetloc(url, 2)`: the netloc runs from position 2 to the first
`/`, `?` or `#`. -/
def splitNetloc (url : Str) : Str × Str :=
  let rest := url.drop 2
  let netloc := rest.takeWhile (fun c => !(c = '/' || c = '?' || c = '#'))
  (netloc, rest.drop netloc.length)

/-- Split at the first occurrence of `c`; without an occurrence the second
component is empty, which coincides with `urlsplit` leaving the fragment or
query empty when the separator is absent. -/
def splitFirst (s : Str) (c : Char) : Str × Str :=
  (s.takeWhile (fun x => x ≠ c), (s.dropWhile (fun x => x ≠ c)).tail)

/-- Result of the embedded `urlsplit` (the `path` component is carried along
but never read by `parse_vless_link`). -/
structure SplitResult where
  scheme : Str
  netloc : Str
  path : Str
  query : Str
  fragment : Str
deriving DecidableEq, Repr

/-- `urlsplit` (CPython 3.11.6), with two model restrictions that replace
behaviour `parse_vless_link` never exercises on the inputs our theorems
quantify over: a bracketed host (`[...]` in the netloc, checked by
`_check_bracketed_host` against `ipaddress`) and a non-ASCII netloc (checked
by `_checknetloc` under NFKC normalisation) are reported as distinguished
model errors instead. -/
def pyUrlsplit (url0 : Str) : Except String SplitResult :=
  let url1 := removeUnsafe (lstripC0 url0)
  let (scheme, url2) := splitScheme url1
  if "//".data.isPrefixOf url2 then
    let (netloc, url3) := splitNetloc url2
    if (netloc.contains '[' && !netloc.contains ']') ||
       (netloc.contains ']' && !netloc.contains '[') then
      .error "Invalid IPv6 URL"
    else if netloc.contains '[' && netloc.contains ']' then
      .error "model restriction: bracketed host not modelled"
    else if !netloc.all (fun c => c.toNat ≤ 127) then
      .error "model restriction: non-ASCII netloc not modelled"
    else
      let (url4, fragment) := splitFirst url3 '#'
      let (path, query) := splitFirst url4 '?'
      .ok ⟨scheme, netloc, path, query, fragment⟩
  else
    let (url4, fragment) := splitFirst url2 '#'
    let (path, query) := splitFirst url4 '?'
    .ok ⟨scheme, [], path, query, fragment⟩

/-- `netloc.rpartition('@')`: `none` when there is no `@`, otherwise the
parts before and after the last `@`. -/
def rpartitionAt (s : Str) (c : Char) : Option (Str × Str) :=
  let revAfter := s.reverse.takeWhile (fun x => x ≠ c)
  let revRest := s.reverse.dropWhile (fun x => x ≠ c)
  match revRest with
  | [] => none
  | _ :: revBefore => some (revBefore.reverse, revAfter.reverse)

/-- `SplitResult.username`: the userinfo (before the last `@`) up to the
first `:`; `None` when the netloc has no `@`. -/
def usernameOf (p : SplitResult) : Option Str :=
  match rpartitionAt p.netloc '@' with
  | none => none
  | some (userinfo, _) => some (userinfo.takeWhile (fun x => x ≠ ':'))

/-- The host-and-port part of the netloc (after the last `@`).  The
bracketed-host branch of `_hostinfo` is unreachable here because the
embedded `urlsplit` already rejected netlocs containing `[`. -/
def hostinfoOf (p : SplitResult) : Str :=
  match rpartitionAt p.netloc '@' with
  | none => p.netloc
  | some (_, hostinfo) => hostinfo

/-- `SplitResult.hostname`: the hostinfo up to the first `:`, lowercased up
to the first `%` (zone info is preserved as-is); `None` when empty. -/
def hostnameOf (p : SplitResult) : Option Str :=
  let h := (hostinfoOf p).takeWhile (fun x => x ≠ ':')
  match h with
  | [] => none
  | _ =>
    some ((h.takeWhile (fun x => x ≠ '%')).map Char.toLower ++
          h.dropWhile (fun x => x ≠ '%'))

/-- The raw port text: everything after the first `:` of the hostinfo,
`None` when there is no `:` or nothing follows it. -/
def portStrOf (p : SplitResult) : Option Str :=
  match (hostinfoOf p).dropWhile (fun x => x ≠ ':') with
  | [] => none
  | _ :: t => if t = [] then none else some t

/-- Decimal value of a digit string. -/
def digitsToNat (s : Str) : Nat :=
  s.foldl (fun acc c => acc * 10 + (c.toNat - 48)) 0

/-- `SplitResult.port` (CPython 3.11.6): requires `port.isdigit() and
port.isascii()` — i.e. a non-empty run of ASCII digits — then range-checks
against 0..65535; anything else raises `ValueError`. -/
def portValOf (p : SplitResult) : Except String (Option Nat) :=
  match portStrOf p with
  | none => .ok none
  | some s =>
    if s ≠ [] && s.all Char.isDigit then
      let n := digitsToNat s
      if n ≤ 65535 then .ok (some n)
      else .error "Port out of range 0-65535"
    else .error "Port could not be cast to integer value"

/-- `str.split(sep)` for a single-character separator (keeps empty pieces). -/
def splitAllAux (sep : Char) : Str → Str → List Str
  | [], cur => [cur.reverse]
  | x :: t, cur =>
    if x = sep then cur.reverse :: splitAllAux sep t []
    else splitAllAux sep t (x :: cur)

def splitAll (sep : Char) (s : Str) : List Str := splitAllAux sep s []

/-- `str.replace('+', ' ')`. -/
def plusToSpace (s : Str) : Str := s.map (fun c => if c = '+' then ' ' else c)

/-- `urllib.parse.unquote`, modelled as the identity.  This is exact for
strings containing no `%` (`unquote` returns them unchanged); percent
escapes are a model restriction and none of the theorems' inputs use them. -/
def pyUnquote (s : Str) : Str := s

/-- `parse_qsl(qs, keep_blank_values=True)`: split on `&`, skip empty
pieces, split each piece at the first `=` (a piece without `=` keeps a blank
value), then apply `+`-to-space and `unquote` to both name and value. -/
def pyParseQsl (qs : Str) : List (String × String) :=
  if qs = [] then []
  else
    (splitAll '&' qs).filterMap (fun seg =>
      if seg = [] then none
      else
        let name := seg.takeWhile (fun c => c ≠ '=')
        let rest := seg.dropWhile (fun c => c ≠ '=')
        match rest with
        | [] => some (⟨pyUnquote (plusToSpace seg)⟩, "")
        | _ :: value =>
          some (⟨pyUnquote (plusToSpace name)⟩, ⟨pyUnquote (plusToSpace value)⟩))

/-- Appending a value to its key's group, preserving first-occurrence key
order (the `parse_qs` accumulation loop over a Python dict). -/
def insertQs (acc : List (String × List String)) (k : String) (v : String) :
    List (String × List String) :=
  match acc with
  | [] => [(k, [v])]
  | (k', vs) :: t =>
    if k' = k then (k', vs ++ [v]) :: t else (k', vs) :: insertQs t k v

/-- `parse_qs(qs, keep_blank_values=True)`. -/
def pyParseQs (qs : Str) : List (String × List String) :=
  (pyParseQsl qs).foldl (fun acc kv => insertQs acc kv.1 kv.2) []

/-- The comprehension on vless2json.py line 272:
`{k: (v[0] if isinstance(v, list) and v else "") for k, v in raw_qs.items()}`. -/
def optionsFromQuery (qs : Str) : List (String × String) :=
  (pyParseQs qs).map (fun kv => (kv.1, match kv.2 with | v :: _ => v | [] => ""))

/-- A terminal failure of the program: `sys.exit(msg)` (a clean one-line
diagnostic) or an uncaught exception propagating out (a traceback). -/
inductive PFail where
  | exit (msg : String)
  | raise_ (msg : String)
deriving DecidableEq, Repr

/-- The intermediate record returned by `parse_vless_link` (its constant
`"type": "vless"` entry is re-attached in `toRawParams`). -/
structure VlessRecord where
  uuid : Str
  host : Str
  port : Nat
  params : List (String × String)
  name : Option Str
deriving DecidableEq, Repr

/-- Python `str.lower`, ASCII-only (see the header note). -/
def pyLower (s : Str) : Str := s.map Char.toLower

/-- `link.lower().startswith("vless://")`. -/
def checkScheme1 (link : String) : Bool :=
  "vless://".data.isPrefixOf (pyLower link.data)

/-- `parse_vless_link` (vless2json.py lines 257-281). -/
def parse_vless_link (link : String) : Except PFail VlessRecord :=
  if checkScheme1 link then
    match pyUrlsplit link.data with
    | .error m => .error (.raise_ m)
    | .ok parsed =>
      if pyLower parsed.scheme ≠ "vless".data then
        .error (.exit "Schema should be vless://")
      else
        match usernameOf parsed with
        | none => .error (.exit "User id is undefined")
        | some u =>
          if u = [] then .error (.exit "User id is undefined")
          else
            let host := hostnameOf parsed
            match portValOf parsed with
            | .error m => .error (.raise_ m)
            | .ok port =>
              if host = none || port = none || port = some 0 then
                .error (.exit "Proxy host or port not defined")
              else
                .ok { uuid := u
                      host := host.getD []
                      port := (port.getD 0)
                      params := optionsFromQuery parsed.query
                      name := if parsed.fragment = [] then none
                              else some parsed.fragment }
  else .error (.exit "Link should start with vless://")

/-- `build_proxies` (vless2json.py lines 283-289): CLI-supplied ports are
stored as the strings `f"{port}"`, `http_port` first. -/
def build_proxies (http_port socks_port : Option Nat) : List (String × PyVal) :=
  (match http_port with
   | some n => if n ≠ 0 then [("http_port", .pstr (toString n))] else []
   | none => []) ++
  (match socks_port with
   | some n => if n ≠ 0 then [("socks_port", .pstr (toString n))] else []
   | none => [])

/-- The merged record built in `main`:
`{**vless_info, "proxies": build_proxies(...) or None}`. -/
def toRawParams (r : VlessRecord) (hp sp : Option Nat) : List (String × PyVal) :=
  [("type", .pstr "vless"),
   ("uuid", .pstr ⟨r.uuid⟩),
   ("server", .pdict [("host", .pstr ⟨r.host⟩), ("port", .pint r.port)]),
   ("params", .pdict (r.params.map (fun kv => (kv.1, PyVal.pstr kv.2)))),
   ("name", match r.name with | some s => .pstr ⟨s⟩ | none => .pnone),
   ("proxies", match build_proxies hp sp with | [] => .pnone | l => .pdict l)]

/-- The core pipeline of `main`: parse the link, merge the resolved ports,
synthesize the document.  `Except.ok` is the document handed to
`json.dump`; `Except.error` means the process terminated with no output. -/
def main_model (link : String) (hp sp : Option Nat) : Except PFail PyVal :=
  match parse_vless_link link with
  | .error e => .error e
  | .ok r => (build_config (toRawParams r hp sp)).mapError PFail.raise_

/-! ## Derived description of the synthesized document

`configDoc` restates the value `build_config` produces on a merged record,
with each input-derived hole computed by an explicit function; the theorem
`build_config_toRawParams` below proves it equal to the program's output. -/

/-- The socks inbound port: the stringified `--socks5-proxy` value when that
CLI option was supplied (and nonzero), else the literal default `8107`. -/
def socksPortHole (sp : Option Nat) : PyVal :=
  match sp with
  | some n => if n ≠ 0 then .pstr (toString n) else .pint 8107
  | none => .pint 8107

/-- The http inbound port: the stringified `--http-proxy` value when that
CLI option was supplied (and nonzero), else the literal default `8108`. -/
def httpPortHole (hp : Option Nat) : PyVal :=
  match hp with
  | some n => if n ≠ 0 then .pstr (toString n) else .pint 8108
  | none => .pint 8108

/-- A string field materialised through the accessor: empty strings become
the absent marker (an empty dict in the output). -/
def strHole (s : Str) : PyVal := if s = [] then .pdict [] else .pstr ⟨s⟩

/-- An int field materialised through the accessor: zero becomes the absent
marker. -/
def portHole (n : Nat) : PyVal := if n = 0 then .pdict [] else .pint (n : Int)

/-- `params.<k> or <d>`: the query option when present and non-empty, else
the literal default. -/
def paramOr (ps : List (String × String)) (k d : String) : PyVal :=
  match alistGetS ps k with
  | some v => if v = "" then .pstr d else .pstr v
  | none => .pstr d

/-- `params.<k>` materialised verbatim: the query option when present and
non-empty, else the absent marker. -/
def paramPass (ps : List (String × String)) (k : String) : PyVal :=
  match alistGetS ps k with
  | some v => if v = "" then .pdict [] else .pstr v
  | none => .pdict []

/-- The fixed `log` block. -/
def logLit : PyVal := .pdict [
  ("access", .pstr "none"),
  ("error", .pstr ""),
  ("loglevel", .pstr "warning"),
  ("dnsLog", .pbool false)]

/-- The fixed `stats` block. -/
def statsLit : PyVal := .pdict []

/-- The fixed `policy` block. -/
def policyLit : PyVal := .pdict [
  ("levels", .pdict [
    ("0", .pdict [
      ("statsUserUplink", .pbool true),
      ("statsUserDownlink", .pbool true)])]),
  ("system", .pdict [
    ("statsOutboundUplink", .pbool true),
    ("statsOutboundDownlink", .pbool true)])]

/-- The fixed `api` block. -/
def apiLit : PyVal := .pdict [
  ("tag", .pstr "api"),
  ("services", .plist [.pstr "StatsService"])]

/-- The fixed `routing` block: eight rules in priority order (API traffic,
private-IP blocking, three BitTorrent/tracker rules to direct, the
extra-allow override to proxy, the country/region domain bypass, the
country/region IP bypass). -/
def routingLit : PyVal := .pdict [
  ("domainStrategy", .pstr "AsIs"),
  ("rules", .plist [
    .pdict [
      ("type", .pstr "field"),
      ("inboundTag", .plist [.pstr "api"]),
      ("outboundTag", .pstr "api")],
    .pdict [
      ("type", .pstr "field"),
      ("ip", .plist [.pstr "geoip:private"]),
      ("outboundTag", .pstr "block")],
    .pdict [
      ("type", .pstr "field"),
      ("protocol", .plist [.pstr "bittorrent"]),
      ("outboundTag", .pstr "direct")],
    .pdict [
      ("type", .pstr "field"),
      ("port", .pstr "6969,6881-6889"),
      ("outboundTag", .pstr "direct")],
    .pdict [
      ("type", .pstr "field"),
      ("sourcePort", .pstr "6881-6889"),
      ("outboundTag", .pstr "direct")],
    .pdict [
      ("type", .pstr "field"),
      ("domain", .plist [.pstr "ext:customgeo.dat:coherence-extra-exceptions"]),
      ("outboundTag", .pstr "proxy")],
    .pdict [
      ("type", .pstr "field"),
      ("domain", .plist [
        .pstr "geosite:cn",
        .pstr "domain:cn",
        .pstr "domain:xn--fiqs8s",
        .pstr "domain:xn--fiqz9s",
        .pstr "domain:xn--55qx5d",
        .pstr "domain:xn--io0a7i",
        .pstr "domain:ru",
        .pstr "domain:xn--p1ai",
        .pstr "domain:by",
        .pstr "domain:xn--90ais",
        .pstr "domain:ir",
        .pstr "ext:customgeo.dat:coherence-extra",
        .pstr "ext:customgeo.dat:coherence-extra-plus"]),
      ("outboundTag", .pstr "direct")],
    .pdict [
      ("type", .pstr "field"),
      ("ip", .plist [
        .pstr "geoip:cn",
        .pstr "geoip:ru",
        .pstr "geoip:by",
        .pstr "geoip:ir"]),
      ("outboundTag", .pstr "direct")]])]

/-- The document `build_config` synthesizes for the merged record of
`r`, `--http-proxy` and `--socks5-proxy` (see `build_config_toRawParams`). -/
def configDoc (r : VlessRecord) (hp sp : Option Nat) : PyVal := .pdict [
  ("log", logLit),
  ("stats", statsLit),
  ("policy", policyLit),
  ("api", apiLit),
  ("inbounds", .plist [
    .pdict [
      ("tag", .pstr "socks"),
      ("port", socksPortHole sp),
      ("listen", .pstr "127.0.0.1"),
      ("protocol", .pstr "socks"),
      ("sniffing", .pdict [
        ("enabled", .pbool true),
        ("destOverride", .plist [.pstr "http", .pstr "tls"]),
        ("routeOnly", .pbool true)]),
      ("settings", .pdict [
        ("auth", .pstr "noauth"),
        ("udp", .pbool true)])],
    .pdict [
      ("tag", .pstr "http"),
      ("port", httpPortHole hp),
      ("listen", .pstr "127.0.0.1"),
      ("protocol", .pstr "http"),
      ("sniffing", .pdict [
        ("enabled", .pbool true),
        ("destOverride", .plist [.pstr "http", .pstr "tls"]),
        ("routeOnly", .pbool true)]),
      ("settings", .pdict [
        ("auth", .pstr "noauth"),
        ("udp", .pbool true)])]]),
  ("outbounds", .plist [
    .pdict [
      ("tag", .pstr "proxy"),
      ("protocol", .pstr "vless"),
      ("settings", .pdict [
        ("vnext", .plist [
          .pdict [
            ("address", strHole r.host),
            ("port", portHole r.port),
            ("users", .plist [
              .pdict [
                ("id", strHole r.uuid),
                ("encryption", .pstr "none"),
                ("flow", paramOr r.params "flow" "xtls-rprx-vision-udp443")]])]])]),
      ("streamSettings", .pdict [
        ("network", paramOr r.params "type" "tcp"),
        ("security", paramOr r.params "security" "reality"),
        ("realitySettings", .pdict [
          ("fingerprint", paramPass r.params "fp"),
          ("serverName", paramPass r.params "sni"),
          ("show", .pbool false),
          ("publicKey", paramPass r.params "pbk"),
          ("shortId", paramPass r.params "sid")])])],
    .pdict [
      ("tag", .pstr "direct"),
      ("protocol", .pstr "freedom"),
      ("settings", .pdict [])],
    .pdict [
      ("protocol", .pstr "blackhole"),
      ("tag", .pstr "block")]]),
  ("routing", routingLit)]

/-! ## Field extractors over the synthesized document -/

/-- Field lookup on a dict value. -/
def objGet (v : PyVal) (k : String) : Option PyVal :=
  match v with
  | .pdict fs => alistGet fs k
  | _ => none

/-- First element of a list value. -/
def plistHead : PyVal → Option PyVal
  | .plist (x :: _) => some x
  | _ => none

/-- A field that is a string, as a string. -/
def strField (v : PyVal) (k : String) : Option String :=
  match objGet v k with
  | some (.pstr s) => some s
  | _ => none

/-- The inbound listener list. -/
def docInbounds (doc : PyVal) : Option (List PyVal) :=
  match objGet doc "inbounds" with
  | some (.plist l) => some l
  | _ => none

/-- The outbound list. -/
def docOutbounds (doc : PyVal) : Option (List PyVal) :=
  match objGet doc "outbounds" with
  | some (.plist l) => some l
  | _ => none

/-- The routing-rule list. -/
def docRules (doc : PyVal) : Option (List PyVal) :=
  match objGet doc "routing" with
  | some rt =>
    match objGet rt "rules" with
    | some (.plist l) => some l
    | _ => none
  | none => none

/-- The `port` field of the socks (first) inbound. -/
def socksPortOfDoc (doc : PyVal) : Option PyVal :=
  match docInbounds doc with
  | some (i :: _) => objGet i "port"
  | _ => none

/-- The `port` field of the http (second) inbound. -/
def httpPortOfDoc (doc : PyVal) : Option PyVal :=
  match docInbounds doc with
  | some (_ :: i :: _) => objGet i "port"
  | _ => none

/-- The proxy (first) outbound. -/
def proxyOutbound (doc : PyVal) : Option PyVal :=
  match docOutbounds doc with
  | some (o :: _) => some o
  | _ => none

/-- The single user object of the proxy outbound's `vnext` entry. -/
def proxyUser (doc : PyVal) : Option PyVal :=
  proxyOutbound doc >>= (objGet · "settings") >>= (objGet · "vnext") >>=
    plistHead >>= (objGet · "users") >>= plistHead

/-- The `flow` emitted for the proxy outbound. -/
def flowOfDoc (doc : PyVal) : Option PyVal :=
  proxyUser doc >>= (objGet · "flow")

/-- The proxy outbound's `streamSettings`. -/
def streamOfDoc (doc : PyVal) : Option PyVal :=
  proxyOutbound doc >>= (objGet · "streamSettings")

/-- The `network` emitted in `streamSettings`. -/
def networkOfDoc (doc : PyVal) : Option PyVal :=
  streamOfDoc doc >>= (objGet · "network")

/-- The `security` emitted in `streamSettings`. -/
def securityOfDoc (doc : PyVal) : Option PyVal :=
  streamOfDoc doc >>= (objGet · "security")

/-- A field of `streamSettings.realitySettings`. -/
def realityField (doc : PyVal) (k : String) : Option PyVal :=
  streamOfDoc doc >>= (objGet · "realitySettings") >>= (objGet · k)

/-- The document of a finished run, `none` when the process failed. -/
def docOf (e : Except PFail PyVal) : Option PyVal :=
  match e with
  | .ok d => some d
  | .error _ => none

/-- The http inbound port of a finished run when it is a JSON string. -/
def httpPortStrOf (e : Except PFail PyVal) : Option String :=
  match docOf e >>= httpPortOfDoc with
  | some (.pstr s) => some s
  | _ => none

/-- The http inbound port of a finished run when it is a JSON number. -/
def httpPortIntOf (e : Except PFail PyVal) : Option Int :=
  match docOf e >>= httpPortOfDoc with
  | some (.pint n) => some n
  | _ => none

/-- The emitted `serverName` of a finished run when it is a JSON string. -/
def serverNameStrOf (e : Except PFail PyVal) : Option String :=
  match docOf e >>= (realityField · "serverName") with
  | some (.pstr s) => some s
  | _ => none

/-- Whether a run produced a document. -/
def ranOk (e : Except PFail PyVal) : Bool :=
  match e with
  | .ok _ => true
  | .error _ => false

/-! ## Structural checkers for the document invariants (claim C1) -/

/-- An inbound entry: given tag and protocol, bound to loopback, sniffing
enabled with destination-override domains `http` and `tls` (in order). -/
def inbOkAux (e : PyVal) (tagProto : String) : Bool :=
  strField e "tag" == some tagProto &&
  strField e "listen" == some "127.0.0.1" &&
  strField e "protocol" == some tagProto &&
  (match objGet e "sniffing" with
   | some sn =>
     (match objGet sn "enabled" with | some (.pbool b) => b | _ => false) &&
     (match objGet sn "destOverride" with
      | some (.plist [.pstr a, .pstr b]) => a == "http" && b == "tls"
      | _ => false)
   | none => false)

/-- Exactly two inbounds, socks then http, each loopback-bound with
sniffing enabled and override domains http/tls. -/
def c1Inbounds (doc : PyVal) : Bool :=
  match docInbounds doc with
  | some [i1, i2] => inbOkAux i1 "socks" && inbOkAux i2 "http"
  | _ => false

/-- Exactly three outbounds in the fixed order proxy, direct, block. -/
def c1Outbounds (doc : PyVal) : Bool :=
  match docOutbounds doc with
  | some [o1, o2, o3] =>
    strField o1 "tag" == some "proxy" &&
    strField o2 "tag" == some "direct" &&
    strField o3 "tag" == some "block"
  | _ => false

/-- The outbound tag a routing rule selects. -/
def ruleOut (rr : PyVal) : Option String := strField rr "outboundTag"

/-- Exactly eight routing rules in the fixed priority order: API traffic to
api, private IPs to block, the three BitTorrent/tracker rules to direct,
the extra-allow domain override to proxy, the country/region domain bypass
to direct, the country/region IP bypass to direct. -/
def c1Rules (doc : PyVal) : Bool :=
  match docRules doc with
  | some [r1, r2, r3, r4, r5, r6, r7, r8] =>
    (match objGet r1 "inboundTag" with
     | some (.plist [.pstr a]) => a == "api" | _ => false) &&
    ruleOut r1 == some "api" &&
    (match objGet r2 "ip" with
     | some (.plist [.pstr a]) => a == "geoip:private" | _ => false) &&
    ruleOut r2 == some "block" &&
    (match objGet r3 "protocol" with
     | some (.plist [.pstr a]) => a == "bittorrent" | _ => false) &&
    ruleOut r3 == some "direct" &&
    strField r4 "port" == some "6969,6881-6889" &&
    ruleOut r4 == some "direct" &&
    strField r5 "sourcePort" == some "6881-6889" &&
    ruleOut r5 == some "direct" &&
    (match objGet r6 "domain" with
     | some (.plist [.pstr a]) => a == "ext:customgeo.dat:coherence-extra-exceptions"
     | _ => false) &&
    ruleOut r6 == some "proxy" &&
    (match objGet r7 "domain" with
     | some (.plist (.pstr a :: _)) => a == "geosite:cn" | _ => false) &&
    ruleOut r7 == some "direct" &&
    (match objGet r8 "ip" with
     | some (.plist [.pstr a, .pstr b, .pstr c, .pstr d]) =>
       a == "geoip:cn" && b == "geoip:ru" && c == "geoip:by" && d == "geoip:ir"
     | _ => false) &&
    ruleOut r8 == some "direct"
  | _ => false

/-! ## Absence of null in the output (claim C9) -/

mutual

/-- No `None` occurs anywhere in the value. -/
def noNull : PyVal → Bool
  | .pnone => false
  | .pbool _ => true
  | .pint _ => true
  | .pstr _ => true
  | .plist xs => noNullList xs
  | .pdict fs => noNullFields fs

/-- `noNull` over the elements of a list value. -/
def noNullList : List PyVal → Bool
  | [] => true
  | x :: t => noNull x && noNullList t

/-- `noNull` over the values of a dict. -/
def noNullFields : List (String × PyVal) → Bool
  | [] => true
  | (_, v) :: t => noNull v && noNullFields t

end

/-! ## Helper lemmas -/

theorem except_bind_ok (a : α) (f : α → Except ε β) :
    (Except.ok a >>= f : Except ε β) = f a := rfl

theorem toDigitsCore_ne_nil (b : Nat) :
    ∀ (fuel n : Nat) (acc : List Char), fuel ≠ 0 ∨ acc ≠ [] →
      Nat.toDigitsCore b fuel n acc ≠ [] := by
  intro fuel
  induction fuel with
  | zero =>
    intro n acc h
    rcases h with h | h
    · exact absurd rfl h
    · simpa [Nat.toDigitsCore] using h
  | succ f ih =>
    intro n acc _
    show ¬ Nat.toDigitsCore b (f + 1) n acc = []
    rw [Nat.toDigitsCore]
    split
    next => simp
    next => exact ih _ _ (Or.inr (by simp))

theorem natToString_ne_empty (n : Nat) : (toString n : String) ≠ "" := by
  show Nat.repr n ≠ ""
  simp only [Nat.repr, Nat.toDigits]
  intro h
  have h2 : Nat.toDigitsCore 10 (n + 1) n [] = [] := by
    have := congrArg String.data h
    simpa [List.asString] using this
  exact toDigitsCore_ne_nil 10 (n + 1) n [] (Or.inl (by simp)) h2

theorem alistGet_map_pstr (ps : List (String × String)) (k : String) :
    alistGet (ps.map (fun kv => (kv.1, PyVal.pstr kv.2))) k =
      (alistGetS ps k).map PyVal.pstr := by
  induction ps with
  | nil => simp [alistGet, alistGetS]
  | cons h t ih =>
    simp only [List.map_cons, alistGet, alistGetS]
    split <;> simp [ih]

theorem getattr_rp_params (r : VlessRecord) (hp sp : Option Nat) (k : String)
    (hk : dadShadowed k = false) :
    getattr (getattr (.value (.pdict (toRawParams r hp sp))) "params") k =
      (match alistGetS r.params k with
       | some v => if v = "" then .absent else .value (.pstr v)
       | none => .absent) := by
  have hP : dadShadowed "params" = false := by decide
  simp only [toRawParams, getattr, alistGet, String.reduceEq, reduceIte,
    truthyWrapped, alistGet_map_pstr, hk, hP, Bool.false_eq_true, if_false]
  cases h : alistGetS r.params k with
  | none => simp
  | some v =>
    by_cases hv : v = "" <;> simp [hv, truthyWrapped]

theorem dotOr_socks (r : VlessRecord) (hp sp : Option Nat) :
    dotOr (getattr (getattr (.value (.pdict (toRawParams r hp sp))) "proxies")
        "socks_port") (.pint 8107) = .ok (socksPortHole sp) := by
  have hX : dadShadowed "proxies" = false := by decide
  have hY : dadShadowed "socks_port" = false := by decide
  rcases hp with _ | n <;> rcases sp with _ | m <;>
    simp only [toRawParams, build_proxies, getattr, alistGet, String.reduceEq,
      reduceIte, truthyWrapped, dotOr, socksPortHole, hX, hY, Bool.false_eq_true,
      if_false] <;>
    try rfl
  · by_cases hm : m = 0 <;>
      simp [hm, alistGet, truthyWrapped, dotOr, natToString_ne_empty, String.reduceEq,
        hX, hY]
  · by_cases hn : n = 0 <;>
      simp [hn, alistGet, truthyWrapped, dotOr, String.reduceEq, hX, hY]
  · by_cases hn : n = 0 <;> by_cases hm : m = 0 <;>
      simp [hn, hm, alistGet, truthyWrapped, dotOr, natToString_ne_empty,
        String.reduceEq, hX, hY]

theorem dotOr_http (r : VlessRecord) (hp sp : Option Nat) :
    dotOr (getattr (getattr (.value (.pdict (toRawParams r hp sp))) "proxies")
        "http_port") (.pint 8108) = .ok (httpPortHole hp) := by
  have hX : dadShadowed "proxies" = false := by decide
  have hY : dadShadowed "http_port" = false := by decide
  rcases hp with _ | n <;> rcases sp with _ | m <;>
    simp only [toRawParams, build_proxies, getattr, alistGet, String.reduceEq,
      reduceIte, truthyWrapped, dotOr, httpPortHole, hX, hY, Bool.false_eq_true,
      if_false] <;>
    try rfl
  · by_cases hm : m = 0 <;>
      simp [hm, alistGet, truthyWrapped, dotOr, String.reduceEq, hX, hY]
  · by_cases hn : n = 0 <;>
      simp [hn, alistGet, truthyWrapped, dotOr, natToString_ne_empty, String.reduceEq,
        hX, hY]
  · by_cases hn : n = 0 <;> by_cases hm : m = 0 <;>
      simp [hn, hm, alistGet, truthyWrapped, dotOr, natToString_ne_empty,
        String.reduceEq, hX, hY]

theorem dotMat_host (r : VlessRecord) (hp sp : Option Nat) :
    dotMaterialize (getattr (getattr (.value (.pdict (toRawParams r hp sp))) "server")
        "host") = .ok (strHole r.host) := by
  have hX : dadShadowed "server" = false := by decide
  have hY : dadShadowed "host" = false := by decide
  simp only [toRawParams, getattr, alistGet, String.reduceEq, reduceIte, truthyWrapped,
    strHole, hX, hY, Bool.false_eq_true, if_false]
  by_cases h : r.host = [] <;>
    simp [h, dotMaterialize, show (⟨[]⟩ : String) = "" from rfl, String.ext_iff]

theorem dotMat_port (r : VlessRecord) (hp sp : Option Nat) :
    dotMaterialize (getattr (getattr (.value (.pdict (toRawParams r hp sp))) "server")
        "port") = .ok (portHole r.port) := by
  have hX : dadShadowed "server" = false := by decide
  have hY : dadShadowed "port" = false := by decide
  simp only [toRawParams, getattr, alistGet, String.reduceEq, reduceIte, truthyWrapped,
    portHole, hX, hY, Bool.false_eq_true, if_false]
  by_cases h : r.port = 0 <;> simp [h, dotMaterialize]

theorem dotMat_uuid (r : VlessRecord) (hp sp : Option Nat) :
    dotMaterialize (getattr (.value (.pdict (toRawParams r hp sp))) "uuid") =
      .ok (strHole r.uuid) := by
  have hX : dadShadowed "uuid" = false := by decide
  simp only [toRawParams, getattr, alistGet, String.reduceEq, reduceIte, truthyWrapped,
    strHole, hX, Bool.false_eq_true, if_false]
  by_cases h : r.uuid = [] <;>
    simp [h, dotMaterialize, String.ext_iff]

theorem dotOr_param (r : VlessRecord) (hp sp : Option Nat) (k d : String)
    (hk : dadShadowed k = false) :
    dotOr (getattr (getattr (.value (.pdict (toRawParams r hp sp))) "params") k)
        (.pstr d) = .ok (paramOr r.params k d) := by
  rw [getattr_rp_params r hp sp k hk]
  unfold paramOr
  cases h : alistGetS r.params k with
  | none => rfl
  | some v => by_cases hv : v = "" <;> simp [hv, dotOr, truthyWrapped]

theorem dotMat_param (r : VlessRecord) (hp sp : Option Nat) (k : String)
    (hk : dadShadowed k = false) :
    dotMaterialize (getattr (getattr (.value (.pdict (toRawParams r hp sp))) "params") k)
      = .ok (paramPass r.params k) := by
  rw [getattr_rp_params r hp sp k hk]
  unfold paramPass
  cases h : alistGetS r.params k with
  | none => rfl
  | some v => by_cases hv : v = "" <;> simp [hv, dotMaterialize]

/-- On every merged record built by `main`, the synthesis succeeds (no
`AttributeError` is reachable) and produces exactly `configDoc`. -/
theorem build_config_toRawParams (r : VlessRecord) (hp sp : Option Nat) :
    build_config (toRawParams r hp sp) = .ok (configDoc r hp sp) := by
  rw [build_config]
  rw [dotOr_socks, except_bind_ok, dotOr_http, except_bind_ok, dotMat_host,
    except_bind_ok, dotMat_port, except_bind_ok, dotMat_uuid, except_bind_ok,
    dotOr_param r hp sp "flow" "xtls-rprx-vision-udp443" (by decide),
    except_bind_ok,
    dotOr_param r hp sp "type" "tcp" (by decide), except_bind_ok,
    dotOr_param r hp sp "security" "reality" (by decide), except_bind_ok,
    dotMat_param r hp sp "fp" (by decide), except_bind_ok,
    dotMat_param r hp sp "sni" (by decide), except_bind_ok,
    dotMat_param r hp sp "pbk" (by decide), except_bind_ok,
    dotMat_param r hp sp "sid" (by decide), except_bind_ok]
  rfl

/-! ## Claim C1 -/

/-- C1: for every parsed record and resolved ports, the synthesized document
contains exactly two inbounds in the order socks then http (each listening
on 127.0.0.1 with sniffing enabled and destination-override domains http
and tls), exactly three outbounds in the fixed order proxy, direct, block,
and exactly eight routing rules in the fixed priority order (API traffic,
private-IP blocking, BitTorrent/tracker rules to direct, extra-allow
override to proxy, country/region domain bypass, country/region IP
bypass). -/
theorem c1_document_shape (r : VlessRecord) (hp sp : Option Nat) :
    ∃ doc, build_config (toRawParams r hp sp) = .ok doc ∧
      c1Inbounds doc = true ∧ c1Outbounds doc = true ∧ c1Rules doc = true := by
  refine ⟨configDoc r hp sp, build_config_toRawParams r hp sp, ?_, ?_, ?_⟩ <;>
    simp [configDoc, c1Inbounds, c1Outbounds, c1Rules, docInbounds, docOutbounds,
      docRules, objGet, alistGet, inbOkAux, strField, ruleOut, routingLit, logLit,
      statsLit, policyLit, apiLit, String.reduceEq]

/-! ## Claim C2 -/

/-- C2: on a parsed input whose query lacks `flow`, `type` and `security`,
the synthesized outbound carries `flow = xtls-rprx-vision-udp443`,
`network = tcp` and `security = reality`; a supplied
`flow=xtls-rprx-vision` appears in the output instead of the default. -/
theorem c2_default_substitution (link : String) (rec : VlessRecord)
    (hp sp : Option Nat) (_hparse : parse_vless_link link = .ok rec) :
    ∃ doc, build_config (toRawParams rec hp sp) = .ok doc ∧
      ((alistGetS rec.params "flow" = none ∧ alistGetS rec.params "type" = none ∧
        alistGetS rec.params "security" = none) →
        flowOfDoc doc = some (.pstr "xtls-rprx-vision-udp443") ∧
        networkOfDoc doc = some (.pstr "tcp") ∧
        securityOfDoc doc = some (.pstr "reality")) ∧
      (alistGetS rec.params "flow" = some "xtls-rprx-vision" →
        flowOfDoc doc = some (.pstr "xtls-rprx-vision")) := by
  refine ⟨configDoc rec hp sp, build_config_toRawParams rec hp sp, ?_, ?_⟩
  · rintro ⟨h1, h2, h3⟩
    refine ⟨?_, ?_, ?_⟩ <;>
      simp [configDoc, flowOfDoc, networkOfDoc, securityOfDoc, proxyUser,
        proxyOutbound, docOutbounds, streamOfDoc, objGet, alistGet, plistHead,
        paramOr, h1, h2, h3, Option.bind, String.reduceEq]
  · intro h
    simp [configDoc, flowOfDoc, proxyUser, proxyOutbound, docOutbounds, streamOfDoc,
      objGet, alistGet, plistHead, paramOr, h, Option.bind, String.reduceEq]

/-- Witness for C2 at the parsed inputs `vless://u@h:1` (no protocol
options) and `vless://u@h:1?flow=xtls-rprx-vision` (supplied flow). -/
theorem c2_default_substitution_witness :
    (∃ doc, build_config (toRawParams ⟨['u'], ['h'], 1, [], none⟩ none none) = .ok doc ∧
      flowOfDoc doc = some (.pstr "xtls-rprx-vision-udp443") ∧
      networkOfDoc doc = some (.pstr "tcp") ∧
      securityOfDoc doc = some (.pstr "reality")) ∧
    (∃ doc, build_config (toRawParams
        ⟨['u'], ['h'], 1, [("flow", "xtls-rprx-vision")], none⟩ none none) = .ok doc ∧
      flowOfDoc doc = some (.pstr "xtls-rprx-vision")) := by
  constructor
  · obtain ⟨doc, hdoc, hdef, _⟩ := c2_default_substitution "vless://u@h:1"
      ⟨['u'], ['h'], 1, [], none⟩ none none (by rfl)
    obtain ⟨hf, hn, hs⟩ := hdef ⟨rfl, rfl, rfl⟩
    exact ⟨doc, hdoc, hf, hn, hs⟩
  · obtain ⟨doc, hdoc, _, hov⟩ := c2_default_substitution
      "vless://u@h:1?flow=xtls-rprx-vision"
      ⟨['u'], ['h'], 1, [("flow", "xtls-rprx-vision")], none⟩ none none (by rfl)
    exact ⟨doc, hdoc, hov rfl⟩

/-! ## Claim C3 -/

/-- C3, counterexample: with `--http-proxy 9999` the emitted http inbound
port is the JSON string `"9999"` and not the JSON number `9999`
(`build_proxies` stringifies CLI ports with `f"{port}"`), so the claim's
"the http inbound port in the output equals 9999" fails as stated. -/
theorem c3_port_counterexample :
    httpPortStrOf (main_model "vless://u@h:1" (some 9999) none) = some "9999" ∧
    httpPortIntOf (main_model "vless://u@h:1" (some 9999) none) = none := by
  constructor <;> rfl

/-- C3, amended: omitting both CLI options yields the literal integer
ports 8107 (socks) and 8108 (http); supplying `--http-proxy 9999` yields
the string `"9999"` for the http inbound port while socks still defaults
to the integer 8107. -/
theorem c3_port_fallback (r : VlessRecord) :
    (∃ doc, build_config (toRawParams r none none) = .ok doc ∧
      socksPortOfDoc doc = some (.pint 8107) ∧
      httpPortOfDoc doc = some (.pint 8108)) ∧
    (∃ doc, build_config (toRawParams r (some 9999) none) = .ok doc ∧
      httpPortOfDoc doc = some (.pstr "9999") ∧
      socksPortOfDoc doc = some (.pint 8107)) := by
  constructor <;>
    refine ⟨configDoc r _ _, build_config_toRawParams r _ _, ?_, ?_⟩ <;>
    · simp [configDoc, socksPortOfDoc, httpPortOfDoc, docInbounds, objGet, alistGet,
        socksPortHole, httpPortHole, String.reduceEq]
      try rfl

/-! ## Claim C8 -/

/-- C8: the transform is deterministic — two runs on the same URI and the
same resolved ports yield the same document — and every structural field
not derived from input (`log`, `stats`, `policy`, `api` and the whole
`routing` block with its rule bodies and geo-list literals) equals a fixed
literal constant, independently of the input.  The embedding is a pure
function of the URI and ports, so no timestamp or random ordering can
enter the output; byte-identical serialisation follows from document
equality. -/
theorem c8_deterministic (link : String) (hp sp : Option Nat) (d1 d2 : PyVal)
    (h1 : main_model link hp sp = .ok d1) (h2 : main_model link hp sp = .ok d2) :
    d1 = d2 ∧ objGet d1 "log" = some logLit ∧ objGet d1 "stats" = some statsLit ∧
      objGet d1 "policy" = some policyLit ∧ objGet d1 "api" = some apiLit ∧
      objGet d1 "routing" = some routingLit := by
  have hd : d1 = d2 := by
    have := h1.symm.trans h2
    exact Except.ok.inj this
  refine ⟨hd, ?_, ?_, ?_, ?_, ?_⟩ <;>
  · unfold main_model at h1
    rcases hp2 : parse_vless_link link with e | rec
    · rw [hp2] at h1; exact absurd h1 (by simp)
    · rw [hp2] at h1
      simp only [build_config_toRawParams, Except.mapError] at h1
      have : d1 = configDoc rec hp sp := by
        simpa using h1.symm
      subst this
      simp [configDoc, objGet, alistGet, String.reduceEq]

/-- Witness for C8 at `vless://u@h:1` with no resolved ports. -/
theorem c8_deterministic_witness :
    ∃ d, main_model "vless://u@h:1" none none = .ok d ∧
      objGet d "log" = some logLit ∧ objGet d "stats" = some statsLit ∧
      objGet d "policy" = some policyLit ∧ objGet d "api" = some apiLit ∧
      objGet d "routing" = some routingLit := by
  obtain ⟨_, h1, h2, h3, h4, h5⟩ := c8_deterministic "vless://u@h:1" none none
    (configDoc ⟨['u'], ['h'], 1, [], none⟩ none none)
    (configDoc ⟨['u'], ['h'], 1, [], none⟩ none none) (by rfl) (by rfl)
  exact ⟨_, by rfl, h1, h2, h3, h4, h5⟩

/-! ## Claim C9 -/

theorem noNull_socksPortHole (sp : Option Nat) : noNull (socksPortHole sp) = true := by
  rcases sp with _ | n
  · rfl
  · by_cases h : n = 0 <;> simp [socksPortHole, h, noNull]

theorem noNull_httpPortHole (hp : Option Nat) : noNull (httpPortHole hp) = true := by
  rcases hp with _ | n
  · rfl
  · by_cases h : n = 0 <;> simp [httpPortHole, h, noNull]

theorem noNull_strHole (s : Str) : noNull (strHole s) = true := by
  by_cases h : s = [] <;> simp [strHole, h, noNull, noNullFields]

theorem noNull_portHole (n : Nat) : noNull (portHole n) = true := by
  by_cases h : n = 0 <;> simp [portHole, h, noNull, noNullFields]

theorem noNull_paramOr (ps : List (String × String)) (k d : String) :
    noNull (paramOr ps k d) = true := by
  unfold paramOr
  cases h : alistGetS ps k with
  | none => rfl
  | some v => by_cases hv : v = "" <;> simp [hv, noNull]

theorem noNull_paramPass (ps : List (String × String)) (k : String) :
    noNull (paramPass ps k) = true := by
  unfold paramPass
  cases h : alistGetS ps k with
  | none => rfl
  | some v => by_cases hv : v = "" <;> simp [hv, noNull, noNullFields]

/-- C9: the synthesized document never contains a null: every field sourced
from the query options falls back to its literal default when the option is
absent or empty (an absent optional TLS field materialises as the empty
object, not null), and the TLS fields `fingerprint`, `serverName`,
`publicKey`, `shortId` (options `fp`, `sni`, `pbk`, `sid`) are passed
through verbatim whenever present and non-empty. -/
theorem c9_no_null_verbatim (r : VlessRecord) (hp sp : Option Nat) :
    ∃ doc, build_config (toRawParams r hp sp) = .ok doc ∧ noNull doc = true ∧
      (∀ v, alistGetS r.params "fp" = some v → v ≠ "" →
        realityField doc "fingerprint" = some (.pstr v)) ∧
      (∀ v, alistGetS r.params "sni" = some v → v ≠ "" →
        realityField doc "serverName" = some (.pstr v)) ∧
      (∀ v, alistGetS r.params "pbk" = some v → v ≠ "" →
        realityField doc "publicKey" = some (.pstr v)) ∧
      (∀ v, alistGetS r.params "sid" = some v → v ≠ "" →
        realityField doc "shortId" = some (.pstr v)) ∧
      ((alistGetS r.params "flow" = none ∨ alistGetS r.params "flow" = some "") →
        flowOfDoc doc = some (.pstr "xtls-rprx-vision-udp443")) ∧
      ((alistGetS r.params "type" = none ∨ alistGetS r.params "type" = some "") →
        networkOfDoc doc = some (.pstr "tcp")) ∧
      ((alistGetS r.params "security" = none ∨
        alistGetS r.params "security" = some "") →
        securityOfDoc doc = some (.pstr "reality")) := by
  refine ⟨configDoc r hp sp, build_config_toRawParams r hp sp, ?_, ?_, ?_, ?_, ?_,
    ?_, ?_, ?_⟩
  · simp [configDoc, noNull, noNullFields, noNullList, logLit, statsLit, policyLit,
      apiLit, routingLit, noNull_socksPortHole, noNull_httpPortHole, noNull_strHole,
      noNull_portHole, noNull_paramOr, noNull_paramPass]
  · intro v hv hne
    simp [configDoc, realityField, streamOfDoc, proxyOutbound, docOutbounds, objGet,
      alistGet, plistHead, paramPass, hv, hne, Option.bind, String.reduceEq]
  · intro v hv hne
    simp [configDoc, realityField, streamOfDoc, proxyOutbound, docOutbounds, objGet,
      alistGet, plistHead, paramPass, hv, hne, Option.bind, String.reduceEq]
  · intro v hv hne
    simp [configDoc, realityField, streamOfDoc, proxyOutbound, docOutbounds, objGet,
      alistGet, plistHead, paramPass, hv, hne, Option.bind, String.reduceEq]
  · intro v hv hne
    simp [configDoc, realityField, streamOfDoc, proxyOutbound, docOutbounds, objGet,
      alistGet, plistHead, paramPass, hv, hne, Option.bind, String.reduceEq]
  · rintro (h | h) <;>
      simp [configDoc, flowOfDoc, proxyUser, proxyOutbound, docOutbounds, streamOfDoc,
        objGet, alistGet, plistHead, paramOr, h, Option.bind, String.reduceEq]
  · rintro (h | h) <;>
      simp [configDoc, networkOfDoc, proxyOutbound, docOutbounds, streamOfDoc,
        objGet, alistGet, plistHead, paramOr, h, Option.bind, String.reduceEq]
  · rintro (h | h) <;>
      simp [configDoc, securityOfDoc, proxyOutbound, docOutbounds, streamOfDoc,
        objGet, alistGet, plistHead, paramOr, h, Option.bind, String.reduceEq]

/-- Witness for C9 at a record carrying `fp=chrome` and an empty
`security=`. -/
theorem c9_no_null_verbatim_witness :
    ∃ doc, build_config (toRawParams
        ⟨['u'], ['h'], 1, [("fp", "chrome"), ("security", "")], none⟩ none none) =
        .ok doc ∧
      noNull doc = true ∧ realityField doc "fingerprint" = some (.pstr "chrome") ∧
      securityOfDoc doc = some (.pstr "reality") := by
  obtain ⟨doc, hdoc, hnn, hfp, _, _, _, _, _, hsec⟩ := c9_no_null_verbatim
    ⟨['u'], ['h'], 1, [("fp", "chrome"), ("security", "")], none⟩ none none
  exact ⟨doc, hdoc, hnn, hfp "chrome" rfl (by decide), hsec (Or.inr rfl)⟩

/-! ## Claim C4 -/

/-- C4, counterexample: `vless://user@host:abc` passes the scheme and
identity checks and has an unparseable port, yet the parser does not fail
with the MissingEndpoint diagnostic — evaluating `parsed.port` raises an
uncaught `ValueError` first. -/
theorem c4_endpoint_counterexample :
    parse_vless_link "vless://user@host:abc" =
      .error (.raise_ "Port could not be cast to integer value") ∧
    parse_vless_link "vless://user@host:abc" ≠
      .error (.exit "Proxy host or port not defined") := by
  have h1 : parse_vless_link "vless://user@host:abc" =
      .error (.raise_ "Port could not be cast to integer value") := rfl
  refine ⟨h1, ?_⟩
  intro h
  rw [h1] at h
  exact absurd (Except.error.inj h) (by simp)

/-- C4, amended: for every link that passes the scheme and identity checks
(and whose authority the `urlsplit` model accepts), if the port component
parses — in particular if it is absent — then an empty host, a missing
port, or a zero port fails with the MissingEndpoint diagnostic
`Proxy host or port not defined`; but a port component that is not a run
of ASCII digits in 0..65535 instead raises an uncaught `ValueError` from
`parsed.port` before that check is reached. -/
theorem c4_missing_endpoint (link : String) (parts : SplitResult)
    (h1 : checkScheme1 link = true)
    (h2 : pyUrlsplit link.data = .ok parts)
    (h3 : pyLower parts.scheme = "vless".data)
    (h4 : ∃ u, usernameOf parts = some u ∧ u ≠ []) :
    (∀ p, portValOf parts = .ok p →
      (hostnameOf parts = none ∨ p = none ∨ p = some 0) →
      parse_vless_link link = .error (.exit "Proxy host or port not defined")) ∧
    (∀ m, portValOf parts = .error m →
      parse_vless_link link = .error (.raise_ m)) := by
  obtain ⟨u, hu, hune⟩ := h4
  constructor
  · intro p hp hd
    rcases hd with hd | hd | hd <;>
      simp [parse_vless_link, h1, h2, h3, hu, hune, hp, hd]
  · intro m hm
    simp [parse_vless_link, h1, h2, h3, hu, hune, hm]

/-- Witness for the amended C4 at `vless://u@h` (no port). -/
theorem c4_missing_endpoint_witness :
    parse_vless_link "vless://u@h" =
      .error (.exit "Proxy host or port not defined") := by
  refine (c4_missing_endpoint "vless://u@h"
    ⟨"vless".data, "u@h".data, [], [], []⟩ (by rfl) (by rfl) (by rfl)
    ⟨['u'], by rfl, by simp⟩).1 none (by rfl) (Or.inr (Or.inl rfl))

/-! ## Claim C5 -/

/-- C5: validation is fail-fast in a fixed order — an input failing the
scheme prefix check exits with the InvalidScheme diagnostic regardless of
anything else; an input passing the scheme checks but with a missing or
empty identity exits with the MissingIdentity diagnostic; in particular
`http://user@host:1/` yields InvalidScheme and `vless://host:1/` yields
MissingIdentity, each terminating the pipeline with no output document. -/
theorem c5_validation_order :
    (∀ link : String, checkScheme1 link = false →
      parse_vless_link link = .error (.exit "Link should start with vless://")) ∧
    (∀ (link : String) (parts : SplitResult), checkScheme1 link = true →
      pyUrlsplit link.data = .ok parts → pyLower parts.scheme ≠ "vless".data →
      parse_vless_link link = .error (.exit "Schema should be vless://")) ∧
    (∀ (link : String) (parts : SplitResult), checkScheme1 link = true →
      pyUrlsplit link.data = .ok parts → pyLower parts.scheme = "vless".data →
      (usernameOf parts = none ∨ usernameOf parts = some []) →
      parse_vless_link link = .error (.exit "User id is undefined")) ∧
    main_model "http://user@host:1/" none none =
      .error (.exit "Link should start with vless://") ∧
    main_model "vless://host:1/" none none =
      .error (.exit "User id is undefined") := by
  refine ⟨?_, ?_, ?_, rfl, rfl⟩
  · intro link h
    simp [parse_vless_link, h]
  · intro link parts h1 h2 h3
    simp [parse_vless_link, h1, h2, h3]
  · intro link parts h1 h2 h3 h4
    rcases h4 with h4 | h4 <;> simp [parse_vless_link, h1, h2, h3, h4]

/-- Witness for C5 at `vless://@h:1` (empty identity before a valid
endpoint, showing identity wins over later checks). -/
theorem c5_validation_order_witness :
    parse_vless_link "vless://@h:1" = .error (.exit "User id is undefined") := by
  exact c5_validation_order.2.2.1 "vless://@h:1"
    ⟨"vless".data, "@h:1".data, [], [], []⟩ (by rfl) (by rfl) (by rfl)
    (Or.inr rfl)

/-! ## Claim C6 -/

theorem lookup_optsOf_insert (k0 : String) (v0 : String) :
    ∀ (acc : List (String × List String)) (k : String),
      (∀ g ∈ acc, g.2 ≠ []) →
      alistGetS ((insertQs acc k0 v0).map
          (fun kv => (kv.1, match kv.2 with | v :: _ => v | [] => ""))) k =
        (match alistGetS (acc.map
            (fun kv => (kv.1, match kv.2 with | v :: _ => v | [] => ""))) k with
         | some w => some w
         | none => if k0 = k then some v0 else none) := by
  intro acc
  induction acc with
  | nil => intro k h; simp [insertQs, alistGetS]
  | cons g t ih =>
    intro k h
    obtain ⟨k', vs⟩ := g
    have hvs : vs ≠ [] := h (k', vs) (by simp)
    by_cases hk0 : k' = k0
    · subst hk0
      simp only [insertQs, if_pos rfl, List.map_cons, alistGetS]
      by_cases hk : k' = k
      · subst hk
        simp only [if_pos rfl]
        cases vs with
        | nil => exact absurd rfl hvs
        | cons a b => simp
      · simp only [if_neg hk]
        cases hl : alistGetS (t.map
            (fun kv => (kv.1, match kv.2 with | v :: _ => v | [] => ""))) k with
        | none => simp [if_neg hk]
        | some w => simp
    · simp only [insertQs, if_neg hk0, List.map_cons, alistGetS]
      by_cases hk : k' = k
      · simp [if_pos hk]
      · simp only [if_neg hk]
        exact ih k (fun g hg => h g (by simp [hg]))

theorem insertQs_nonempty (k0 v0 : String) :
    ∀ (acc : List (String × List String)),
      (∀ g ∈ acc, g.2 ≠ []) → ∀ g ∈ insertQs acc k0 v0, g.2 ≠ [] := by
  intro acc
  induction acc with
  | nil => intro _ g hg; simp [insertQs] at hg; simp [hg]
  | cons p t ih =>
    intro h g hg
    obtain ⟨k', vs⟩ := p
    by_cases hk0 : k' = k0
    · subst hk0
      simp only [insertQs, if_pos rfl] at hg
      rcases List.mem_cons.mp hg with hg | hg
      · subst hg; simp
      · exact h g (by simp [hg])
    · simp only [insertQs, if_neg hk0] at hg
      rcases List.mem_cons.mp hg with hg | hg
      · subst hg; exact h (k', vs) (by simp)
      · exact ih (fun g hg => h g (by simp [hg])) g hg

theorem lookup_foldl_insert (pairs : List (String × String)) :
    ∀ (acc : List (String × List String)) (k : String),
      (∀ g ∈ acc, g.2 ≠ []) →
      alistGetS ((pairs.foldl (fun a kv => insertQs a kv.1 kv.2) acc).map
          (fun kv => (kv.1, match kv.2 with | v :: _ => v | [] => ""))) k =
        (match alistGetS (acc.map
            (fun kv => (kv.1, match kv.2 with | v :: _ => v | [] => ""))) k with
         | some w => some w
         | none => ((pairs.find? (fun kv => kv.1 == k)).map (·.2))) := by
  induction pairs with
  | nil =>
    intro acc k h
    simp only [List.foldl_nil, List.find?_nil, Option.map_none]
    cases alistGetS (acc.map
        (fun kv => (kv.1, match kv.2 with | v :: _ => v | [] => ""))) k <;> rfl
  | cons p t ih =>
    intro acc k h
    obtain ⟨k0, v0⟩ := p
    simp only [List.foldl_cons]
    rw [ih (insertQs acc k0 v0) k (insertQs_nonempty k0 v0 acc h)]
    rw [lookup_optsOf_insert k0 v0 acc k h]
    cases hl : alistGetS (acc.map
        (fun kv => (kv.1, match kv.2 with | v :: _ => v | [] => ""))) k with
    | some w => simp [List.find?_cons]
    | none =>
      by_cases hk : k0 = k
      · subst hk
        simp [List.find?_cons]
      · have : ((k0, v0).1 == k) = false := by simp [hk]
        simp [List.find?_cons, this, if_neg hk]

/-- C6: decoding the query string into the options mapping keeps, for every
key, exactly the value of its first occurrence in the decoded
name/value-pair list, and a key occurring with a blank value is kept and
bound to the empty string rather than dropped (illustrated on
`a=1&a=2&b=&c`). -/
theorem c6_query_decoding :
    (∀ (qs : Str) (k : String),
      alistGetS (optionsFromQuery qs) k =
        ((pyParseQsl qs).find? (fun kv => kv.1 == k)).map (·.2)) ∧
    (∀ (qs : Str) (k : String) (v : String), (k, v) ∈ pyParseQsl qs →
      ∃ w, alistGetS (optionsFromQuery qs) k = some w) ∧
    optionsFromQuery "a=1&a=2&b=&c".data = [("a", "1"), ("b", ""), ("c", "")] := by
  have main : ∀ (qs : Str) (k : String),
      alistGetS (optionsFromQuery qs) k =
        ((pyParseQsl qs).find? (fun kv => kv.1 == k)).map (·.2) := by
    intro qs k
    unfold optionsFromQuery pyParseQs
    rw [lookup_foldl_insert (pyParseQsl qs) [] k (by simp)]
    simp [alistGetS]
  refine ⟨main, ?_, by rfl⟩
  intro qs k v hmem
  rw [main qs k]
  have : ((pyParseQsl qs).find? (fun kv => kv.1 == k)).isSome := by
    apply List.find?_isSome.mpr
    exact ⟨(k, v), hmem, by simp⟩
  obtain ⟨kv, hkv⟩ := Option.isSome_iff_exists.mp this
  rw [hkv]
  exact ⟨kv.2, rfl⟩

/-- Witness for C6 at the query `a=1&b=&a=2` and key `b`. -/
theorem c6_query_decoding_witness :
    ∃ w, alistGetS (optionsFromQuery "a=1&b=&a=2".data) "b" = some w := by
  exact c6_query_decoding.2.1 "a=1&b=&a=2".data "b" "" (by decide)

/-! ## Claim C7 -/

/-- C7, counterexample: the claim fails for field names that collide with a
real attribute of the wrapper, because Python consults `__getattr__` only
when normal attribute lookup fails.  For the mapping `{"items": "x"}` the
access `w.items` resolves to the bound `dict.items` method — not the stored
truthy value and not the absent marker — and on the absent marker
`absent.items` likewise yields the bound method rather than a further
absent marker (in CPython, chaining on from it, e.g. `absent.items.sub`,
then raises `AttributeError`). -/
theorem c7_shadow_counterexample :
    getattr (.value (.pdict [("items", .pstr "x")])) "items" = .shadowed "items" ∧
    getattr (.value (.pdict [("items", .pstr "x")])) "items" ≠ .value (.pstr "x") ∧
    getattr (.value (.pdict [("items", .pstr "x")])) "items" ≠ .absent ∧
    getattr .absent "items" ≠ .absent := by
  have h1 : getattr (.value (.pdict [("items", .pstr "x")])) "items" =
      .shadowed "items" := rfl
  have h2 : getattr .absent "items" = .shadowed "items" := rfl
  refine ⟨h1, ?_, ?_, ?_⟩
  · rw [h1]; simp
  · rw [h1]; simp
  · rw [h2]; simp

/-- C7, amended: for every wrapped mapping and every field name that does
not collide with an attribute of the wrapper itself (`dadShadowedNames`:
the `dict`/`object` methods, `get_path`, the mangled flag and the
inherited dunders), attribute-style access returns the field's value when
present and truthy and the absent marker otherwise — so a present empty
string, zero, or false behaves exactly like an absent key; a colliding
name instead resolves to the wrapper's own attribute, on the wrapped
mapping and on the absent marker alike; the absent marker is falsy in
boolean context (it falls through to the default of an `or`), a truthy
wrapped value is returned by `or` unchanged, and chained access through
the absent marker along non-colliding names never raises and yields the
absent marker at every depth. -/
theorem c7_safe_accessor :
    (∀ (fs : List (String × PyVal)) (k : String) (v : PyVal),
      dadShadowed k = false → alistGet fs k = some v → truthyWrapped v = true →
      getattr (.value (.pdict fs)) k = .value v) ∧
    (∀ (fs : List (String × PyVal)) (k : String) (v : PyVal),
      dadShadowed k = false → alistGet fs k = some v → truthyWrapped v = false →
      getattr (.value (.pdict fs)) k = .absent) ∧
    (∀ (fs : List (String × PyVal)) (k : String),
      dadShadowed k = false → alistGet fs k = none →
      getattr (.value (.pdict fs)) k = .absent) ∧
    (∀ (fs : List (String × PyVal)) (k : String), dadShadowed k = true →
      getattr (.value (.pdict fs)) k = .shadowed k ∧
      getattr .absent k = .shadowed k) ∧
    (∀ dflt : PyVal, dotOr .absent dflt = .ok dflt) ∧
    (∀ (v dflt : PyVal), truthyWrapped v = true → dotOr (.value v) dflt = .ok v) ∧
    (∀ ks : List String, (∀ k ∈ ks, dadShadowed k = false) →
      ks.foldl getattr .absent = .absent) := by
  refine ⟨?_, ?_, ?_, ?_, fun _ => rfl, ?_, ?_⟩
  · intro fs k v hk hv ht
    simp [getattr, hk, hv, ht]
  · intro fs k v hk hv ht
    simp [getattr, hk, hv, ht]
  · intro fs k hk hv
    simp [getattr, hk, hv]
  · intro fs k hk
    constructor <;> simp [getattr, hk]
  · intro v dflt ht
    simp [dotOr, ht]
  · intro ks
    induction ks with
    | nil => intro _; rfl
    | cons k t ih =>
      intro hks
      have hk : dadShadowed k = false := hks k (by simp)
      have ht : ∀ x ∈ t, dadShadowed x = false := fun x hx => hks x (by simp [hx])
      simpa [getattr, hk] using ih ht

/-- Witness for the amended C7: a truthy field, an empty-string field, a
missing field, a shadowed field name, the falsy absent marker, and a
three-level absent chain along non-colliding names. -/
theorem c7_safe_accessor_witness :
    getattr (.value (.pdict [("a", .pstr "x")])) "a" = .value (.pstr "x") ∧
    getattr (.value (.pdict [("e", .pstr "")])) "e" = .absent ∧
    getattr (.value (.pdict [("e", .pstr "x")])) "missing" = .absent ∧
    getattr (.value (.pdict [("keys", .pstr "x")])) "keys" = .shadowed "keys" ∧
    dotOr .absent (.pint 8107) = .ok (.pint 8107) ∧
    (["security", "sub", "sub2"] : List String).foldl getattr .absent = .absent := by
  refine ⟨c7_safe_accessor.1 _ "a" _ (by decide) rfl rfl,
    c7_safe_accessor.2.1 _ "e" _ (by decide) rfl rfl,
    c7_safe_accessor.2.2.1 _ "missing" (by decide) rfl,
    (c7_safe_accessor.2.2.2.1 [("keys", .pstr "x")] "keys" (by decide)).1,
    c7_safe_accessor.2.2.2.2.1 _,
    c7_safe_accessor.2.2.2.2.2.2 _ (by decide)⟩

/-! ## Claim C10

Supporting lemmas: inverting ASCII lowercasing, sentinel lemmas for list
scanning around the first `#`, and the behaviour of the embedded `urlsplit`
on inputs whose raw prefix passes the `vless://` check. -/

theorem toNat_ofNat_valid (n : Nat) (h : n.isValidChar) :
    (Char.ofNat n).toNat = n := by
  rw [Char.ofNat, dif_pos h]
  rfl

theorem toLower_shape (c : Char) :
    Char.toLower c = c ∨
      (65 ≤ c.toNat ∧ c.toNat ≤ 90 ∧ (Char.toLower c).toNat = c.toNat + 32) := by
  rw [Char.toLower]
  split
  · next h =>
    obtain ⟨h1, h2⟩ := h
    refine Or.inr ⟨h1, h2, ?_⟩
    exact toNat_ofNat_valid _ (Or.inl (by omega))
  · exact Or.inl rfl

theorem char_toNat_inj {a b : Char} (h : a.toNat = b.toNat) : a = b := by
  apply Char.ext
  obtain ⟨⟨av⟩, _⟩ := a
  obtain ⟨⟨bv⟩, _⟩ := b
  have : av = bv := BitVec.eq_of_toNat_eq h
  simp [this]

theorem toLower_punct {c d : Char} (hd : d.toNat < 97) (h : Char.toLower c = d) :
    c = d := by
  rcases toLower_shape c with hs | ⟨h1, h2, h3⟩
  · rw [hs] at h; exact h
  · rw [h] at h3
    omega

theorem toLower_letter {c d : Char} (hl : 97 ≤ d.toNat) (hu : d.toNat ≤ 122)
    (h : Char.toLower c = d) :
    c = d ∨ c.toNat = d.toNat - 32 := by
  rcases toLower_shape c with hs | ⟨h1, h2, h3⟩
  · rw [hs] at h; exact Or.inl h
  · rw [h] at h3
    exact Or.inr (by omega)

theorem toLower_v {c : Char} (h : Char.toLower c = 'v') : c = 'v' ∨ c = 'V' := by
  rcases toLower_letter (by decide) (by decide) h with h2 | h2
  · exact Or.inl h2
  · exact Or.inr (char_toNat_inj (by rw [h2]; rfl))

theorem toLower_l {c : Char} (h : Char.toLower c = 'l') : c = 'l' ∨ c = 'L' := by
  rcases toLower_letter (by decide) (by decide) h with h2 | h2
  · exact Or.inl h2
  · exact Or.inr (char_toNat_inj (by rw [h2]; rfl))

theorem toLower_e {c : Char} (h : Char.toLower c = 'e') : c = 'e' ∨ c = 'E' := by
  rcases toLower_letter (by decide) (by decide) h with h2 | h2
  · exact Or.inl h2
  · exact Or.inr (char_toNat_inj (by rw [h2]; rfl))

theorem toLower_s {c : Char} (h : Char.toLower c = 's') : c = 's' ∨ c = 'S' := by
  rcases toLower_letter (by decide) (by decide) h with h2 | h2
  · exact Or.inl h2
  · exact Or.inr (char_toNat_inj (by rw [h2]; rfl))

theorem isPrefixOf_append_sentinel (c : Char) :
    ∀ (p s t : List Char), c ∉ p →
      p.isPrefixOf (s ++ c :: t) = p.isPrefixOf s := by
  intro p
  induction p with
  | nil => intro s t _; simp [List.isPrefixOf]
  | cons a p ih =>
    intro s t hc
    cases s with
    | nil =>
      have : (a == c) = false := by
        simp only [List.mem_cons, not_or] at hc
        simp only [beq_eq_false_iff_ne]
        exact fun hh => hc.1 hh.symm
      simp [List.isPrefixOf, this]
    | cons b s =>
      simp only [List.cons_append, List.isPrefixOf, List.append_eq]
      rw [ih s t (fun hm => hc (List.mem_cons_of_mem a hm))]

theorem takeWhile_append_sentinel (P : Char → Bool) (c : Char) (hc : P c = false) :
    ∀ (xs t : Str), (xs ++ c :: t).takeWhile P = xs.takeWhile P := by
  intro xs t
  induction xs with
  | nil => simp [List.takeWhile_cons, hc]
  | cons x xs ih =>
    simp only [List.cons_append, List.takeWhile_cons]
    cases P x <;> simp [ih]

theorem dropWhile_append_sentinel (P : Char → Bool) (c : Char) (hc : P c = false) :
    ∀ (xs t : Str), (xs ++ c :: t).dropWhile P = xs.dropWhile P ++ c :: t := by
  intro xs t
  induction xs with
  | nil => simp [List.dropWhile_cons, hc]
  | cons x xs ih =>
    simp only [List.cons_append, List.dropWhile_cons]
    cases P x <;> simp [ih]

theorem vless_head (s : Str)
    (h : "vless://".data.isPrefixOf (pyLower s) = true) :
    ∃ c1 c2 c3 c4 c5 q, s = c1 :: c2 :: c3 :: c4 :: c5 :: ':' :: '/' :: '/' :: q ∧
      (c1 = 'v' ∨ c1 = 'V') ∧ (c2 = 'l' ∨ c2 = 'L') ∧ (c3 = 'e' ∨ c3 = 'E') ∧
      (c4 = 's' ∨ c4 = 'S') ∧ (c5 = 's' ∨ c5 = 'S') := by
  have hdata : "vless://".data = ['v','l','e','s','s',':','/','/'] := rfl
  rw [hdata] at h
  rcases s with _ | ⟨a1, _ | ⟨a2, _ | ⟨a3, _ | ⟨a4, _ | ⟨a5, _ | ⟨a6, _ | ⟨a7, _ | ⟨a8, q⟩⟩⟩⟩⟩⟩⟩⟩ <;>
    simp [pyLower, List.isPrefixOf] at h
  obtain ⟨h1, h2, h3, h4, h5, h6, h7, h8⟩ := h
  have e6 : a6 = ':' := toLower_punct (by decide) h6.symm
  have e7 : a7 = '/' := toLower_punct (by decide) h7.symm
  have e8 : a8 = '/' := toLower_punct (by decide) h8.symm
  subst e6; subst e7; subst e8
  exact ⟨a1, a2, a3, a4, a5, q, rfl, toLower_v h1.symm, toLower_l h2.symm,
    toLower_e h3.symm, toLower_s h4.symm, toLower_s h5.symm⟩

theorem pyUrlsplit_structured (c1 c2 c3 c4 c5 : Char) (q : Str)
    (hc1 : c1 = 'v' ∨ c1 = 'V') (hc2 : c2 = 'l' ∨ c2 = 'L')
    (hc3 : c3 = 'e' ∨ c3 = 'E') (hc4 : c4 = 's' ∨ c4 = 'S')
    (hc5 : c5 = 's' ∨ c5 = 'S') :
    pyUrlsplit (c1 :: c2 :: c3 :: c4 :: c5 :: ':' :: '/' :: '/' :: q) =
      (let netloc := (removeUnsafe q).takeWhile
        (fun c => !(c = '/' || c = '?' || c = '#'))
       let rest := (removeUnsafe q).drop netloc.length
       if (netloc.contains '[' && !netloc.contains ']') ||
          (netloc.contains ']' && !netloc.contains '[') then
         Except.error "Invalid IPv6 URL"
       else if netloc.contains '[' && netloc.contains ']' then
         Except.error "model restriction: bracketed host not modelled"
       else if !netloc.all (fun c => c.toNat ≤ 127) then
         Except.error "model restriction: non-ASCII netloc not modelled"
       else
         let fr := splitFirst rest '#'
         let pq := splitFirst fr.1 '?'
         Except.ok ⟨"vless".data, netloc, pq.1, pq.2, fr.2⟩) := by
  have st1 : lstripC0 (c1 :: c2 :: c3 :: c4 :: c5 :: ':' :: '/' :: '/' :: q) =
      c1 :: c2 :: c3 :: c4 :: c5 :: ':' :: '/' :: '/' :: q := by
    unfold lstripC0
    rw [List.dropWhile_cons_of_neg (by rcases hc1 with h | h <;> subst h <;> decide)]
  have st2 : removeUnsafe (c1 :: c2 :: c3 :: c4 :: c5 :: ':' :: '/' :: '/' :: q) =
      c1 :: c2 :: c3 :: c4 :: c5 :: ':' :: '/' :: '/' :: (removeUnsafe q) := by
    unfold removeUnsafe
    rw [List.filter_cons_of_pos (by rcases hc1 with h | h <;> subst h <;> decide),
      List.filter_cons_of_pos (by rcases hc2 with h | h <;> subst h <;> decide),
      List.filter_cons_of_pos (by rcases hc3 with h | h <;> subst h <;> decide),
      List.filter_cons_of_pos (by rcases hc4 with h | h <;> subst h <;> decide),
      List.filter_cons_of_pos (by rcases hc5 with h | h <;> subst h <;> decide),
      List.filter_cons_of_pos (by decide), List.filter_cons_of_pos (by decide),
      List.filter_cons_of_pos (by decide)]
  have st3 : splitScheme (c1 :: c2 :: c3 :: c4 :: c5 :: ':' :: '/' :: '/' :: (removeUnsafe q)) =
      ("vless".data, '/' :: '/' :: (removeUnsafe q)) := by
    unfold splitScheme
    rw [List.takeWhile_cons_of_pos (by rcases hc1 with h | h <;> subst h <;> decide),
      List.takeWhile_cons_of_pos (by rcases hc2 with h | h <;> subst h <;> decide),
      List.takeWhile_cons_of_pos (by rcases hc3 with h | h <;> subst h <;> decide),
      List.takeWhile_cons_of_pos (by rcases hc4 with h | h <;> subst h <;> decide),
      List.takeWhile_cons_of_pos (by rcases hc5 with h | h <;> subst h <;> decide),
      List.takeWhile_cons_of_neg (by decide),
      List.dropWhile_cons_of_pos (by rcases hc1 with h | h <;> subst h <;> decide),
      List.dropWhile_cons_of_pos (by rcases hc2 with h | h <;> subst h <;> decide),
      List.dropWhile_cons_of_pos (by rcases hc3 with h | h <;> subst h <;> decide),
      List.dropWhile_cons_of_pos (by rcases hc4 with h | h <;> subst h <;> decide),
      List.dropWhile_cons_of_pos (by rcases hc5 with h | h <;> subst h <;> decide),
      List.dropWhile_cons_of_neg (by decide)]
    have hcond : (c1.isAlpha && [c1, c2, c3, c4, c5].all isSchemeChar) = true := by
      rcases hc1 with h | h <;> subst h <;>
        rcases hc2 with h | h <;> subst h <;>
          rcases hc3 with h | h <;> subst h <;>
            rcases hc4 with h | h <;> subst h <;>
              rcases hc5 with h | h <;> subst h <;> decide
    simp only [hcond, if_true, List.map_cons, List.map_nil]
    have hm : [c1.toLower, c2.toLower, c3.toLower, c4.toLower, c5.toLower] =
        "vless".data := by
      rcases hc1 with h | h <;> subst h <;>
        rcases hc2 with h | h <;> subst h <;>
          rcases hc3 with h | h <;> subst h <;>
            rcases hc4 with h | h <;> subst h <;>
              rcases hc5 with h | h <;> subst h <;> decide
    rw [hm]
  unfold pyUrlsplit
  simp only [st1, st2, st3]
  have hpre : ("//".data.isPrefixOf ('/' :: '/' :: (removeUnsafe q))) = true := by
    simp [List.isPrefixOf]
  rw [if_pos hpre]
  unfold splitNetloc
  simp only [List.drop_succ_cons, List.drop_zero]

theorem takeWhile_drop_append (P : Char → Bool) (c : Char) (hc : P c = false) :
    ∀ (xs t : Str),
      (xs ++ c :: t).drop ((xs ++ c :: t).takeWhile P).length =
        xs.drop (xs.takeWhile P).length ++ c :: t := by
  intro xs t
  induction xs with
  | nil => simp [List.takeWhile_cons, hc]
  | cons x xs ih =>
    simp only [List.cons_append, List.takeWhile_cons]
    cases hx : P x with
    | true => simpa using ih
    | false => simp

theorem removeUnsafe_append (a b : Str) :
    removeUnsafe (a ++ b) = removeUnsafe a ++ removeUnsafe b := by
  simp [removeUnsafe, List.filter_append]

theorem pyUrlsplit_append_frag (stem frag : Str) (hnohash : '#' ∉ stem)
    (hv : "vless://".data.isPrefixOf (pyLower stem) = true) :
    pyUrlsplit (stem ++ '#' :: frag) =
      (pyUrlsplit stem).map (fun p => { p with fragment := removeUnsafe frag }) ∧
    (∀ p, pyUrlsplit stem = .ok p → p.fragment = []) := by
  obtain ⟨c1, c2, c3, c4, c5, q, rfl, hc1, hc2, hc3, hc4, hc5⟩ := vless_head stem hv
  have hq : '#' ∉ q := by
    intro hm
    exact hnohash (by simp [hm])
  have happ : (c1 :: c2 :: c3 :: c4 :: c5 :: ':' :: '/' :: '/' :: q) ++ '#' :: frag =
      c1 :: c2 :: c3 :: c4 :: c5 :: ':' :: '/' :: '/' :: (q ++ '#' :: frag) := by simp
  rw [happ, pyUrlsplit_structured c1 c2 c3 c4 c5 (q ++ '#' :: frag) hc1 hc2 hc3 hc4 hc5,
    pyUrlsplit_structured c1 c2 c3 c4 c5 q hc1 hc2 hc3 hc4 hc5]
  have hrm : removeUnsafe (q ++ '#' :: frag) =
      removeUnsafe q ++ '#' :: removeUnsafe frag := by
    unfold removeUnsafe
    rw [List.filter_append, List.filter_cons_of_pos (by decide)]
  rw [hrm]
  have hPn : (fun c => !(c = '/' || c = '?' || c = '#')) '#' = false := by decide
  have htw : (removeUnsafe q ++ '#' :: removeUnsafe frag).takeWhile
      (fun c => !(c = '/' || c = '?' || c = '#')) =
      (removeUnsafe q).takeWhile (fun c => !(c = '/' || c = '?' || c = '#')) :=
    takeWhile_append_sentinel _ _ hPn _ _
  have hdr2 := takeWhile_drop_append
    (fun c => !(c = '/' || c = '?' || c = '#')) '#' hPn (removeUnsafe q) (removeUnsafe frag)
  rw [htw] at hdr2
  simp only [htw, hdr2]
  set R := (removeUnsafe q).drop ((removeUnsafe q).takeWhile
      (fun c => !(c = '/' || c = '?' || c = '#'))).length with hR
  have hnof : '#' ∉ R := by
    intro hm
    have h1 : ('#' : Char) ∈ removeUnsafe q := List.mem_of_mem_drop (hR ▸ hm)
    exact hq (List.mem_filter.mp h1).1
  have hdw : R.dropWhile (fun x => x ≠ '#') = [] := by
    rw [List.dropWhile_eq_nil_iff]
    intro x hx
    by_cases hxc : x = '#'
    · subst hxc; exact absurd hx hnof
    · simp [hxc]
  have hfr_stem : splitFirst R '#' = (R.takeWhile (fun x => x ≠ '#'), []) := by
    unfold splitFirst
    rw [hdw]
    rfl
  have hfr_app : splitFirst (R ++ '#' :: removeUnsafe frag) '#' =
      (R.takeWhile (fun x => x ≠ '#'), removeUnsafe frag) := by
    unfold splitFirst
    rw [takeWhile_append_sentinel _ '#' (by decide) R (removeUnsafe frag),
      dropWhile_append_sentinel _ '#' (by decide) R (removeUnsafe frag), hdw]
    simp
  constructor
  · simp only [hfr_app, hfr_stem]
    split
    · rfl
    · split
      · rfl
      · split
        · rfl
        · rfl
  · intro p hp
    simp only [hfr_stem] at hp
    split at hp
    · exact absurd hp (by simp)
    · split at hp
      · exact absurd hp (by simp)
      · split at hp
        · exact absurd hp (by simp)
        · have := Except.ok.inj hp
          rw [← this]

/-- C10: appending a fragment to a hash-free URI never changes the outcome
of the pipeline — in particular any two URIs that differ only in their
fragment (including omitting it) yield identical synthesized documents, and
identical errors when rejected; the synthesis reads nothing from the
record's `name` field, which is where the parser stores the fragment
(illustrated on `vless://u@h:1#X`). -/
theorem c10_fragment_irrelevant :
    (∀ (stem frag : String) (hp sp : Option Nat), '#' ∉ stem.data →
      main_model (stem ++ "#" ++ frag) hp sp = main_model stem hp sp) ∧
    (∀ (r : VlessRecord) (n1 n2 : Option Str) (hp sp : Option Nat),
      build_config (toRawParams { r with name := n1 } hp sp) =
        build_config (toRawParams { r with name := n2 } hp sp)) ∧
    (parse_vless_link "vless://u@h:1#X").map (fun r => r.name) =
      .ok (some "X".data) := by
  refine ⟨?_, ?_, by rfl⟩
  case refine_2 =>
    intro r n1 n2 hp sp
    rw [build_config_toRawParams, build_config_toRawParams]
    rfl
  intro stem frag hp sp hnohash
  have hd : (stem ++ "#" ++ frag).data = stem.data ++ '#' :: frag.data := by
    simp
  have hpre : "vless://".data.isPrefixOf (pyLower (stem ++ "#" ++ frag).data) =
      "vless://".data.isPrefixOf (pyLower stem.data) := by
    rw [hd]
    show "vless://".data.isPrefixOf
      (List.map Char.toLower (stem.data ++ '#' :: frag.data)) = _
    rw [List.map_append, List.map_cons]
    exact isPrefixOf_append_sentinel '#' _ _ _ (by decide)
  by_cases hcs : "vless://".data.isPrefixOf (pyLower stem.data) = true
  · obtain ⟨happ, hfr⟩ := pyUrlsplit_append_frag stem.data frag.data hnohash hcs
    unfold main_model parse_vless_link checkScheme1
    rw [hd] at hpre ⊢
    rw [hpre, if_pos hcs, if_pos hcs, happ]
    cases husp : pyUrlsplit stem.data with
    | error e => rfl
    | ok p =>
      have hfrag : p.fragment = [] := hfr p husp
      obtain ⟨psch, pnet, ppath, pq, pfrag⟩ := p
      simp only at hfrag
      subst hfrag
      simp only [Except.map]
      have e1 : usernameOf ⟨psch, pnet, ppath, pq, removeUnsafe frag.data⟩ =
          usernameOf ⟨psch, pnet, ppath, pq, []⟩ := rfl
      have e2 : portValOf ⟨psch, pnet, ppath, pq, removeUnsafe frag.data⟩ =
          portValOf ⟨psch, pnet, ppath, pq, []⟩ := rfl
      have e3 : hostnameOf ⟨psch, pnet, ppath, pq, removeUnsafe frag.data⟩ =
          hostnameOf ⟨psch, pnet, ppath, pq, []⟩ := rfl
      rw [e1, e2, e3]
      by_cases h1 : pyLower psch ≠ "vless".data
      · rw [if_pos h1, if_pos h1]
      · rw [if_neg h1, if_neg h1]
        cases hu : usernameOf ⟨psch, pnet, ppath, pq, []⟩ with
        | none => rfl
        | some u =>
          simp only []
          by_cases hue : u = []
          · rw [if_pos hue, if_pos hue]
          · rw [if_neg hue, if_neg hue]
            cases hpv : portValOf ⟨psch, pnet, ppath, pq, []⟩ with
            | error m => rfl
            | ok port =>
              simp only []
              by_cases hcond : (hostnameOf ⟨psch, pnet, ppath, pq, []⟩ = none ||
                  port = none || port = some 0) = true
              · rw [if_pos hcond, if_pos hcond]
              · rw [if_neg hcond, if_neg hcond]
                simp only [build_config_toRawParams]
                rfl
  · unfold main_model parse_vless_link checkScheme1
    rw [hd] at hpre ⊢
    rw [hpre, if_neg hcs, if_neg hcs]

theorem c10_fragment_irrelevant_witness :
    main_model "vless://u@h:1?sni=x#MyNode" none none =
      main_model "vless://u@h:1?sni=x" none none :=
  c10_fragment_irrelevant.1 "vless://u@h:1?sni=x" "MyNode" none none (by decide)
